import Mathlib

/-!
# Verification of the agent-stack payment-gated session protocol layer

A shallow embedding, in Lean 4, of the TypeScript sources of the
`arcabotai/agent-stack` repository:

* the global agent-id codec and identity resolver
  (`parseAgentId`, `formatAgentId`, `fetchRegistrationFile`, `verifyAgent`);
* the registration-file builder (`AgentIdentity.buildRegistrationUri`);
* the x402 payment server (`PaymentServer`: header parsing, structural
  proof validation, requirements header) and payment client
  (`PaymentClient`: config resolution and the arguments handed to the
  external fetch wrapper);
* the MCP HTTP front door (`AgentMcpServerInstance.listen`): CORS
  preflight, path filtering, the payment gate and the session registry.

Conventions of the embedding:

* JavaScript numbers used as chain ids / agent ids are modelled as `Nat`
  (the code validates them with `\d+` patterns, so they are non-negative
  integers);
* fallible code (`throw` / rejected promises) is modelled with
  `Except String`; external effects (ledger reads, network fetches) are
  explicit environment records of such functions;
* the base64-JSON wire codecs (`Buffer.from(...).toString("base64")`
  together with `JSON.stringify` / `JSON.parse`) are bijective on the
  values this layer produces, so a wire string is carried as its decoded
  value: a data URI carries the registration file it encodes, an
  `X-PAYMENT` header is carried as the outcome of decoding it (either
  undecodable, or a decoded JSON value), and the `X-PAYMENT-REQUIRED`
  header is carried as the `{version, accepts}` envelope it decodes to;
* runtime JavaScript values that escape the static types (duck-typed
  payment payloads) are modelled by a JSON value type with JS truthiness,
  property access (`undefined` = `none`), optional chaining `?.` and
  nullish coalescing `??` spelled out.
-/

namespace AgentStack

/-! ## Character classes, JS numbers and decimal rendering

`isDigitCh` / `isHexCh` are the character classes `\d` and `[0-9a-fA-F]`
of the regex in `parseAgentId`.  The ids the code handles are JS numbers,
i.e. IEEE-754 binary64 values: `Number()` of a digit string is the exact
value rounded to the nearest double (`jsNumberOfDigits`), and `${n}` is
the decimal rendering of that double (`natToDec`). -/

def isDigitCh (c : Char) : Bool := '0' ≤ c && c ≤ '9'

def isHexCh (c : Char) : Bool :=
  isDigitCh c || ('a' ≤ c && c ≤ 'f') || ('A' ≤ c && c ≤ 'F')

def digitChar : Nat → Char
  | 0 => '0' | 1 => '1' | 2 => '2' | 3 => '3' | 4 => '4'
  | 5 => '5' | 6 => '6' | 7 => '7' | 8 => '8' | _ => '9'

/-- Decimal digits of `n`, most significant first, in front of `acc`; the
fuel argument (any bound above the digit count) keeps the recursion
structural. -/
def natToDecFuel : Nat → Nat → List Char → List Char
  | 0, _, acc => acc
  | fuel + 1, n, acc =>
    if n < 10 then digitChar n :: acc
    else natToDecFuel fuel (n / 10) (digitChar (n % 10) :: acc)

def natToDecChars (n : Nat) : List Char := natToDecFuel (n + 1) n []

/-- The string a JS template literal renders an integer-valued double to.
For values below `2 ^ 53` (every value the theorems below quantify over)
the shortest round-tripping decimal IS the exact decimal of the integer,
which this computes; JS switches to exponential notation only at `1e21`,
far above that range. -/
def natToDec (n : Nat) : String := ⟨natToDecChars n⟩

/-- The exact mathematical value of a decimal digit string (what
`Number()` rounds). -/
def digitsToNat (cs : List Char) : Nat :=
  cs.foldl (fun a c => 10 * a + (c.toNat - 48)) 0

/-- `⌊log₂ n⌋` by structural recursion on a fuel bound. -/
def log2fuel : Nat → Nat → Nat
  | 0, _ => 0
  | fuel + 1, n => if n < 2 then 0 else 1 + log2fuel fuel (n / 2)

def natLog2 (n : Nat) : Nat := log2fuel n n

/-- A non-negative integer rounded to the nearest IEEE-754 binary64
(round half to even), as a natural number: integers below `2 ^ 53` are
exact; above, the value is rounded to a multiple of `2 ^ (⌊log₂ n⌋ - 52)`.
(Values past the finite double range — above roughly `1.8e308`, i.e.
digit strings of more than 309 characters — would be `Infinity` in JS and
are not modelled; they are outside every theorem's domain.) -/
def fp64RoundNat (n : Nat) : Nat :=
  if n < 2 ^ 53 then n
  else
    let e := natLog2 n - 52
    let q := n / 2 ^ e
    let r := n % 2 ^ e
    let half := 2 ^ (e - 1)
    (if r > half ∨ (r = half ∧ q % 2 = 1) then q + 1 else q) * 2 ^ e

/-- JS `Number(s)` for a decimal digit string `s`: the exact value rounded
to the nearest double.  Above `2 ^ 53` low-order bits are lost — e.g.
`Number("9007199254740993")` is `9007199254740992`. -/
def jsNumberOfDigits (cs : List Char) : Nat := fp64RoundNat (digitsToNat cs)

/-! ## The global agent-id codec (identity/src/agent.ts)

`parseAgentId` matches `^(eip155):(\d+):(0x[0-9a-fA-F]+)#(\d+)$` after
replacing the first `/` by `#` (JS `String.replace` with a string pattern
replaces only the first occurrence).  Each `\d+` / `[0-9a-fA-F]+` is
followed by a character outside its class (`:`, `#`, end of input), so the
regex is equivalent to maximal-munch scanning, which `spanP` implements. -/

structure AgentRef where
  nspace : String
  chainId : Nat
  registry : String
  agentId : Nat
  deriving DecidableEq

/-- Maximal run of characters satisfying `p`, with the remainder. -/
def spanP (p : Char → Bool) : List Char → List Char × List Char
  | [] => ([], [])
  | c :: cs =>
    if p c then
      let r := spanP p cs
      (c :: r.1, r.2)
    else ([], c :: cs)

/-- JS `globalId.replace("/", "#")`: only the first `/` is replaced. -/
def replaceFirstSlash : List Char → List Char
  | [] => []
  | c :: cs => if c = '/' then '#' :: cs else c :: replaceFirstSlash cs

/-- The anchored regex `^(eip155):(\d+):(0x[0-9a-fA-F]+)#(\d+)$` as a
deterministic scanner over the characters of the (already normalized)
input; the two numeric captures go through `Number()`
(`jsNumberOfDigits`), so ids above `2 ^ 53` lose precision. -/
def matchGlobalId (cs : List Char) : Option AgentRef :=
  match cs with
  | 'e' :: 'i' :: 'p' :: '1' :: '5' :: '5' :: ':' :: rest =>
    let s1 := spanP isDigitCh rest
    if s1.1.isEmpty then none else
    match s1.2 with
    | ':' :: '0' :: 'x' :: r2 =>
      let s2 := spanP isHexCh r2
      if s2.1.isEmpty then none else
      match s2.2 with
      | '#' :: r4 =>
        let s3 := spanP isDigitCh r4
        if s3.1.isEmpty || !s3.2.isEmpty then none
        else some ⟨"eip155", jsNumberOfDigits s1.1, ⟨'0' :: 'x' :: s2.1⟩, jsNumberOfDigits s3.1⟩
      | _ => none
    | _ => none
  | _ => none

/-- `parseAgentId`, with the source's `throw` on a non-matching input
modelled as `none` (the thrown error message is `parseErrorMessage`). -/
def parseAgentId (globalId : String) : Option AgentRef :=
  matchGlobalId (replaceFirstSlash globalId.data)

/-- The message of the error `parseAgentId` throws on a non-matching
input. -/
def parseErrorMessage (globalId : String) : String :=
  "Invalid agent global ID format: \"" ++ globalId ++ "\"\n" ++
    "Expected: \"eip155:{chainId}:{registry}#{agentId}\" (e.g. \"eip155:8453:0x8004...#2376\")"

/-- `formatAgentId`: the canonical `#`-separated rendering. -/
def formatAgentId (ref : AgentRef) : String :=
  ref.nspace ++ ":" ++ natToDec ref.chainId ++ ":" ++ ref.registry ++ "#" ++ natToDec ref.agentId

/-- A well-formed global reference string with components `c` (chain id,
canonical decimal), `hx` (the hex digits of the registry after `0x`) and
`a` (local id, canonical decimal), using separator `sep` (`#` or `/`). -/
def canonicalChars (c : Nat) (hx : List Char) (a : Nat) (sep : Char) : List Char :=
  'e' :: 'i' :: 'p' :: '1' :: '5' :: '5' :: ':' ::
    (natToDecChars c ++ ':' :: '0' :: 'x' :: (hx ++ sep :: natToDecChars a))

def canonicalStr (c : Nat) (hx : List Char) (a : Nat) (sep : Char) : String :=
  ⟨canonicalChars c hx a sep⟩

/-! ## Registration records (identity/src/types.ts)

`registrations` is `Option`-valued because `verifyAgent` reads it with
optional chaining (`registration.registrations?.some(...)`): a fetched
document without the field behaves like one with no matching entry. -/

structure AgentService where
  name : String
  endpoint : String
  version : Option String
  skills : Option (List String)
  domains : Option (List String)
  deriving DecidableEq

structure AgentRegistrationRef where
  agentId : Nat
  agentRegistry : String
  deriving DecidableEq

structure AgentRegistrationFile where
  type : String
  name : String
  description : String
  image : Option String
  services : List AgentService
  x402Support : Bool
  active : Bool
  registrations : Option (List AgentRegistrationRef)
  supportedTrust : Option (List String)
  deriving DecidableEq

/-- An agent-URI string, partitioned exactly as `fetchRegistrationFile`
dispatches on it: the string prefixes `data:application/json;base64,`,
`data:application/json,`, `ipfs://`, `https://` / `http://` are mutually
exclusive, and the base64/percent + JSON text codec is bijective, so a data
URI is carried as the document it encodes (`dataB64Malformed` stands for a
data URI whose payload `JSON.parse` rejects — that throw propagates to the
caller like any fetch failure). -/
inductive AgentUri where
  | dataB64 (file : AgentRegistrationFile)
  | dataB64Malformed (message : String)
  | dataPlain (file : AgentRegistrationFile)
  | ipfs (cid : String)
  | httpUrl (url : String)
  | unsupported (uri : String)

/-- The network: what a `fetch` of a URL yields (the body parsed as a
registration file), or the error thrown (non-ok status, timeout, bad
JSON). -/
structure FetchEnv where
  remote : String → Except String AgentRegistrationFile

def DEFAULT_IPFS_GATEWAY : String := "https://ipfs.io/ipfs/"

/-- `fetchRegistrationFile` (identity/src/agent.ts): data URIs resolve
locally, `ipfs://` goes through the gateway, `http(s)://` is fetched
directly, anything else throws. -/
def fetchRegistrationFile (agentUri : AgentUri) (ipfsGateway : String)
    (env : FetchEnv) : Except String AgentRegistrationFile :=
  match agentUri with
  | .dataB64 file => .ok file
  | .dataB64Malformed message => .error message
  | .dataPlain file => .ok file
  | .ipfs cid => env.remote (ipfsGateway ++ cid)
  | .httpUrl url => env.remote url
  | .unsupported uri =>
    .error ("Unsupported URI scheme: \"" ++ uri ++ "\". Supported: data:, ipfs://, https://, http://")

/-! ## Constants (identity/src/constants.ts) -/

def IDENTITY_REGISTRY_ADDRESS : String := "0x8004A169FB4a3325136EB29fA0ceB6D2e539a432"

def ZERO_ADDRESS : String := "0x0000000000000000000000000000000000000000"

structure ChainInfo where
  name : String
  rpc : String
  chainId : Nat

def SUPPORTED_CHAINS (chainId : Nat) : Option ChainInfo :=
  match chainId with
  | 1 => some ⟨"Ethereum", "https://eth.llamarpc.com", 1⟩
  | 8453 => some ⟨"Base", "https://mainnet.base.org", 8453⟩
  | 10 => some ⟨"Optimism", "https://mainnet.optimism.io", 10⟩
  | 42161 => some ⟨"Arbitrum", "https://arb1.arbitrum.io/rpc", 42161⟩
  | 137 => some ⟨"Polygon", "https://polygon-rpc.com", 137⟩
  | 56 => some ⟨"BNB Chain", "https://bsc-dataseed.binance.org", 56⟩
  | 100 => some ⟨"Gnosis", "https://rpc.gnosischain.com", 100⟩
  | 42220 => some ⟨"Celo", "https://forno.celo.org", 42220⟩
  | 59144 => some ⟨"Linea", "https://rpc.linea.build", 59144⟩
  | 534352 => some ⟨"Scroll", "https://rpc.scroll.io", 534352⟩
  | 167000 => some ⟨"Taiko", "https://rpc.mainnet.taiko.xyz", 167000⟩
  | 43114 => some ⟨"Avalanche", "https://api.avax.network/ext/bc/C/rpc", 43114⟩
  | 5000 => some ⟨"Mantle", "https://rpc.mantle.xyz", 5000⟩
  | 1088 => some ⟨"Metis", "https://andromeda.metis.io/?owner=1088", 1088⟩
  | 2741 => some ⟨"Abstract", "https://api.mainnet.abs.xyz", 2741⟩
  | 143 => some ⟨"Monad", "https://rpc.monad.xyz", 143⟩
  | _ => none

/-! ## The identity resolver (identity/src/agent.ts, verifyAgent) -/

structure VerificationResult where
  valid : Bool
  agentId : Nat
  owner : Option String
  paymentWallet : Option String
  registration : Option AgentRegistrationFile
  globalId : String
  error : Option String
  deriving DecidableEq

/-- The on-chain reads `verifyAgent` performs through the viem client, as
an environment: `ownerOf`, `getAgentWallet` and `tokenURI` on the registry
contract, each either a value or (a rejected promise carrying) an error
message. -/
structure Ledger where
  ownerOf : String → Nat → Except String String
  getAgentWallet : String → Nat → Except String String
  tokenURI : String → Nat → Except String AgentUri
  fetchEnv : FetchEnv

/-- JS `String.prototype.toLowerCase` on the ASCII range the addresses and
ids use. -/
def charLower (c : Char) : Char :=
  if 'A' ≤ c && c ≤ 'Z' then Char.ofNat (c.toNat + 32) else c

def toLowerStr (s : String) : String := ⟨s.data.map charLower⟩

/-- `message.includes(pat)` on JS strings. -/
def containsL (pat : List Char) : List Char → Bool
  | [] => pat.isEmpty
  | c :: cs => pat.isPrefixOf (c :: cs) || containsL pat cs

def strContains (s pat : String) : Bool := containsL pat.data s.data

/-- The back-reference target `eip155:${ref.chainId}:${ref.registry.toLowerCase()}`. -/
def expectedAgentRegistry (ref : AgentRef) : String :=
  "eip155:" ++ natToDec ref.chainId ++ ":" ++ toLowerStr ref.registry

/-- Step 4 of `verifyAgent`: does the registration file list a
cross-reference back to this exact `(chainId, registry, agentId)`? -/
def hasBackref (ref : AgentRef) (registration : AgentRegistrationFile) : Bool :=
  (registration.registrations.getD []).any fun r =>
    r.agentId == ref.agentId && toLowerStr r.agentRegistry == expectedAgentRegistry ref

def backrefErrorMessage (ref : AgentRef) : String :=
  "Registration file does not contain a back-reference to this chain's registry. " ++
    "Expected registrations entry: \x7b agentId: " ++ natToDec ref.agentId ++
    ", agentRegistry: \"" ++ expectedAgentRegistry ref ++ "\" \x7d"

/-- The catch-block mapping of a thrown chain-read error (`ownerOf` throws
if the token does not exist). -/
def chainLookupErrorMessage (e : String) (ref : AgentRef) : String :=
  if strContains e "revert" || strContains e "ERC721" then
    "Agent #" ++ natToDec ref.agentId ++ " does not exist on chain " ++ natToDec ref.chainId
  else e

def rpcUrlFor (rpcOverride : Option String) (chainId : Nat) : Option String :=
  match rpcOverride with
  | some r => some r
  | none => (SUPPORTED_CHAINS chainId).map ChainInfo.rpc

/-- `verifyAgent` after the reference is in hand (the common body for both
the string and the object input form).  The resolved RPC URL only selects
the transport of the viem client; the reads themselves go through the
`Ledger` environment.  A throw from any of the three reads lands in the
outer catch (which nulls owner and wallet); a throw from the registration
fetch lands in the inner catch (which keeps them). -/
def verifyAgentRef (ref : AgentRef) (rpcOverride : Option String) (l : Ledger) :
    VerificationResult :=
  let globalId := formatAgentId ref
  match rpcUrlFor rpcOverride ref.chainId with
  | none =>
    { valid := false, agentId := ref.agentId, owner := none, paymentWallet := none,
      registration := none, globalId := globalId,
      error := some ("No RPC URL available for chain " ++ natToDec ref.chainId ++
        ". Add to SUPPORTED_CHAINS or pass rpc option.") }
  | some _ =>
    match l.ownerOf ref.registry ref.agentId with
    | .error e =>
      { valid := false, agentId := ref.agentId, owner := none, paymentWallet := none,
        registration := none, globalId := globalId,
        error := some (chainLookupErrorMessage e ref) }
    | .ok owner =>
      match l.getAgentWallet ref.registry ref.agentId with
      | .error e =>
        { valid := false, agentId := ref.agentId, owner := none, paymentWallet := none,
          registration := none, globalId := globalId,
          error := some (chainLookupErrorMessage e ref) }
      | .ok paymentWalletRaw =>
        let paymentWallet := if paymentWalletRaw = ZERO_ADDRESS then none else some paymentWalletRaw
        match l.tokenURI ref.registry ref.agentId with
        | .error e =>
          { valid := false, agentId := ref.agentId, owner := none, paymentWallet := none,
            registration := none, globalId := globalId,
            error := some (chainLookupErrorMessage e ref) }
        | .ok agentUri =>
          match fetchRegistrationFile agentUri DEFAULT_IPFS_GATEWAY l.fetchEnv with
          | .error msg =>
            { valid := false, agentId := ref.agentId, owner := some owner,
              paymentWallet := paymentWallet, registration := none, globalId := globalId,
              error := some ("Failed to fetch registration file: " ++ msg) }
          | .ok registration =>
            if hasBackref ref registration then
              { valid := true, agentId := ref.agentId, owner := some owner,
                paymentWallet := paymentWallet, registration := some registration,
                globalId := globalId, error := none }
            else
              { valid := false, agentId := ref.agentId, owner := some owner,
                paymentWallet := paymentWallet, registration := some registration,
                globalId := globalId, error := some (backrefErrorMessage ref) }

/-- `verifyAgent` on a string input.  The call to `parseAgentId` sits
OUTSIDE the function's try/catch, so its throw crosses the resolver
boundary: `Except.error` here is an exception the caller sees, `Except.ok`
a returned `VerificationResult`. -/
def verifyAgentString (globalId : String) (l : Ledger) : Except String VerificationResult :=
  match parseAgentId globalId with
  | none => .error (parseErrorMessage globalId)
  | some ref => .ok (verifyAgentRef ref none l)

def exceptIsOk {α : Type} (e : Except String α) : Bool :=
  match e with
  | .ok _ => true
  | .error _ => false

/-! ## The registration builder (identity/src/registry.ts) -/

def REGISTRATION_TYPE : String := "https://eips.ethereum.org/EIPS/eip-8004#registration-v1"

structure RegisterOptions where
  name : String
  description : String
  image : Option String
  services : Option (List AgentService)
  x402Support : Option Bool
  active : Option Bool
  supportedTrust : Option (List String)
  existingRegistrations : Option (List AgentRegistrationRef)

/-- The chain and registry an `AgentIdentity` instance is configured with. -/
structure IdentityCtx where
  chainId : Nat
  registry : String

/-- `AgentIdentity.buildRegistrationUri`: serializes the registration file
and wraps it in a `data:application/json;base64,` URI; when an `agentId` is
known, the current chain's back-reference is unshifted to the front of the
`registrations` list. -/
def buildRegistrationUri (ctx : IdentityCtx) (options : RegisterOptions)
    (agentId : Option Nat) : AgentUri :=
  let registrations := options.existingRegistrations.getD []
  let registrations :=
    match agentId with
    | some aid =>
      (⟨aid, "eip155:" ++ natToDec ctx.chainId ++ ":" ++ ctx.registry⟩ :
        AgentRegistrationRef) :: registrations
    | none => registrations
  .dataB64
    { type := REGISTRATION_TYPE
      name := options.name
      description := options.description
      image := options.image
      services := options.services.getD []
      x402Support := options.x402Support.getD false
      active := options.active.getD true
      registrations := some registrations
      supportedTrust := options.supportedTrust }

/-! ## JSON values with JavaScript semantics

The payment payloads are duck-typed at runtime; the gate inspects them
with truthiness tests, property access, optional chaining `?.` and nullish
coalescing `??`.  `none` plays JS `undefined`. -/

inductive Json where
  | null
  | bool (b : Bool)
  | num (n : Int)
  | str (s : String)
  | arr (elems : List Json)
  | obj (fields : List (String × Json))

/-- JS truthiness: `null`, `false`, `0`, `""` are falsy; objects and
arrays are truthy. -/
def Json.truthy : Json → Bool
  | .null => false
  | .bool b => b
  | .num n => n != 0
  | .str s => s != ""
  | .arr _ => true
  | .obj _ => true

/-- JS `typeof x === "object"` (true for objects, arrays and `null`). -/
def Json.isObjType : Json → Bool
  | .obj _ => true
  | .arr _ => true
  | .null => true
  | _ => false

/-- JS property access `j[key]`; `none` is `undefined` (also for access on
primitives, which JS answers with `undefined`). -/
def jsGet (j : Json) (key : String) : Option Json :=
  match j with
  | .obj fields => fields.lookup key
  | _ => none

/-- Optional chaining `o?.key`: short-circuits on `undefined`/`null`. -/
def jsChain : Option Json → String → Option Json
  | none, _ => none
  | some .null, _ => none
  | some v, key => jsGet v key

/-- Nullish coalescing `a ?? b` where `a` came from a property read. -/
def jsCoalesce (a : Option Json) (b : Json) : Json :=
  match a with
  | none => b
  | some .null => b
  | some v => v

/-- Nullish coalescing between two property reads. -/
def jsCoalesceO (a b : Option Json) : Option Json :=
  match a with
  | none => b
  | some .null => b
  | some v => some v

/-- Truthiness of a possibly-undefined value (`!x` negated). -/
def truthyO (o : Option Json) : Bool :=
  match o with
  | none => false
  | some v => v.truthy

/-! ## Payment constants (payments/src/constants.ts) -/

def USDC_BASE : String := "0x833589fCD6eDb6E08f4c7C32D4f71b54bdA02913"

def DEFAULT_NETWORK : String := "eip155:8453"

def DEFAULT_TIMEOUT_SECONDS : Nat := 300

def DEFAULT_MAX_AMOUNT : String := "10000000"

def NETWORK_USDC (network : String) : Option String :=
  if network = "eip155:1" then some "0xA0b86991c6218b36c1d19D4a2e9Eb0cE3606eB48"
  else if network = "eip155:8453" then some USDC_BASE
  else if network = "eip155:137" then some "0x3c499c542cEF5E3811e1192ce70d8cC03d5c3359"
  else if network = "eip155:42161" then some "0xaf88d065e77c8cC2239327C5EDb3A432268e5831"
  else if network = "eip155:10" then some "0x0b2C639c533813f4Aa9D7837CAf62653d097Ff85"
  else none

/-! ## The payment server (payments/src/server.ts) -/

structure PaymentServerConfig where
  payTo : String
  amount : String
  asset : Option String
  network : Option String
  description : Option String
  maxTimeoutSeconds : Option Nat

/-- `Required<PaymentServerConfig>`: what the `PaymentServer` constructor
stores. -/
structure PaymentServerState where
  payTo : String
  amount : String
  asset : String
  network : String
  description : String
  maxTimeoutSeconds : Nat
  deriving DecidableEq

/-- The `PaymentServer` constructor: defaults network, asset (USDC of the
network, falling back to `NETWORK_USDC["eip155:8453"]` = Base USDC),
description and timeout. -/
def PaymentServer.create (config : PaymentServerConfig) : PaymentServerState :=
  let network := config.network.getD DEFAULT_NETWORK
  { payTo := config.payTo
    amount := config.amount
    asset := config.asset.getD ((NETWORK_USDC network).getD USDC_BASE)
    network := network
    description := config.description.getD "AI agent service payment"
    maxTimeoutSeconds := config.maxTimeoutSeconds.getD DEFAULT_TIMEOUT_SECONDS }

structure PaymentRequirements where
  scheme : String
  network : String
  maxAmountRequired : String
  resource : String
  description : String
  payTo : String
  maxTimeoutSeconds : Nat
  asset : String
  deriving DecidableEq

structure PaymentServerOverrides where
  payTo : Option String
  amount : Option String
  asset : Option String
  network : Option String
  description : Option String

def noOverrides : PaymentServerOverrides := ⟨none, none, none, none, none⟩

def PaymentServer.buildRequirements (ps : PaymentServerState) (resource : String)
    (overrides : PaymentServerOverrides) : PaymentRequirements :=
  { scheme := "exact"
    network := overrides.network.getD ps.network
    maxAmountRequired := overrides.amount.getD ps.amount
    resource := resource
    description := overrides.description.getD ps.description
    payTo := overrides.payTo.getD ps.payTo
    maxTimeoutSeconds := ps.maxTimeoutSeconds
    asset := overrides.asset.getD ps.asset }

/-- The x402 v2 envelope `{version: 2, accepts: [...]}`. -/
structure RequirementsEnvelope where
  version : Nat
  accepts : List PaymentRequirements
  deriving DecidableEq

/-- `buildRequirementsHeader`: base64 of the JSON of the v2 envelope.  The
base64-JSON encoding is injective, so the header value is carried as the
envelope it decodes back to. -/
def PaymentServer.buildRequirementsHeader (ps : PaymentServerState) (resource : String)
    (overrides : PaymentServerOverrides) : RequirementsEnvelope :=
  { version := 2, accepts := [PaymentServer.buildRequirements ps resource overrides] }

/-- A raw `X-PAYMENT` header string, partitioned by what
`JSON.parse(Buffer.from(header, "base64").toString("utf8"))` does with it:
either it throws (`undecodable`) or it yields a JSON value. -/
inductive XPaymentHeader where
  | undecodable
  | decoded (value : Json)

structure ParsedPaymentHeader where
  payload : Json
  network : Json

/-- `parsePaymentHeader`: `null` on missing/undecodable input; otherwise
`{payload: decoded.payload ?? decoded, network: decoded.network ??
decoded.x402Version?.network ?? this.config.network}`. -/
def PaymentServer.parsePaymentHeader (ps : PaymentServerState)
    (header : Option XPaymentHeader) : Option ParsedPaymentHeader :=
  match header with
  | none => none
  | some .undecodable => none
  | some (.decoded decoded) =>
    some
      { payload := jsCoalesce (jsGet decoded "payload") decoded
        network := jsCoalesce
          (jsCoalesceO (jsGet decoded "network") (jsChain (jsGet decoded "x402Version") "network"))
          (.str ps.network) }

/-- What the gate extracts from a structurally valid proof.  The fields
are `Option Json` because the permit-style branch reads them with optional
chaining and can leave them `undefined`. -/
structure PaymentDetails where
  fromAddr : Option Json
  toAddr : Option Json
  amount : Option Json
  asset : Option Json
  network : Json

structure PaymentVerifyResult where
  valid : Bool
  payment : Option PaymentDetails
  error : Option String

/-- `payload.authorization && typeof payload.authorization === "object"`. -/
def authCond (payload : Json) : Bool :=
  match jsGet payload "authorization" with
  | some a => a.truthy && a.isObjType
  | none => false

/-- The structural-validation portion of `PaymentServer.verify` (the body
of its try block): EIP-3009 branch, Permit2 branch, or unrecognized.  No
expression in it can throw (every access is guarded or optional-chained),
so the catch is unreachable. -/
def validateStructure (ps : PaymentServerState) (payload : Json) (network : Json) :
    PaymentVerifyResult :=
  if authCond payload then
    let auth := (jsGet payload "authorization").getD .null
    if truthyO (jsGet auth "from") && truthyO (jsGet auth "to") &&
        truthyO (jsGet auth "value") && truthyO (jsGet auth "nonce") then
      { valid := true
        payment := some
          { fromAddr := jsGet auth "from", toAddr := jsGet auth "to",
            amount := jsGet auth "value", asset := some (.str ps.asset), network := network }
        error := none }
    else
      { valid := false, payment := none, error := some "Invalid EIP-3009 authorization structure" }
  else if truthyO (jsGet payload "permit2Authorization") then
    let p2 := (jsGet payload "permit2Authorization").getD .null
    { valid := true
      payment := some
        { fromAddr := jsGet p2 "from"
          toAddr := jsChain (jsGet p2 "witness") "to"
          amount := jsChain (jsGet p2 "permitted") "amount"
          asset := jsChain (jsGet p2 "permitted") "token"
          network := network }
      error := none }
  else
    { valid := false, payment := none, error := some "Unrecognized payment payload format" }

/-- `PaymentServer.verify` on the request's `X-PAYMENT` header. -/
def PaymentServer.verify (ps : PaymentServerState) (header : Option XPaymentHeader) :
    PaymentVerifyResult :=
  match header with
  | none =>
    { valid := false, payment := none,
      error := some "Missing X-PAYMENT header. This endpoint requires x402 payment." }
  | some h =>
    match PaymentServer.parsePaymentHeader ps (some h) with
    | none => { valid := false, payment := none, error := some "Invalid X-PAYMENT header format" }
    | some parsed => validateStructure ps parsed.payload parsed.network

/-! ## The MCP HTTP server (data/src/server.ts) -/

inductive HttpMethod where
  | GET
  | POST
  | DELETE
  | OPTIONS
  | other (verb : String)
  deriving DecidableEq

/-- An inbound HTTP request to the single listener.  `toolName` is the
tool the MCP body names, carried here so free-list claims can be stated:
the HTTP layer never reads the body before gating, which is exactly what
the theorems about it show. -/
structure McpRequest where
  method : HttpMethod
  url : String
  host : Option String
  xPayment : Option XPaymentHeader
  sessionId : Option String
  toolName : Option String

/-- The engine connection a request is forwarded to. -/
inductive EngineConn where
  | reused (sessionId : String) (transport : Nat)
  | created (sessionId : String) (transport : Nat)
  | stateless (transport : Nat)
  deriving DecidableEq

inductive ServerResponse where
  | preflight
  | notFound (error hint : String)
  | paymentRequired (header : RequirementsEnvelope) (error message : String)
  | invalidPayment (error : String) (message : Option String)
  | badRequest (error message : String)
  | engine (conn : EngineConn)

/-- The HTTP status of each response; `engine` responses relay whatever
the transport produces, recorded as 200 here (never 4xx from this layer). -/
def statusOf : ServerResponse → Nat
  | .preflight => 204
  | .notFound _ _ => 404
  | .paymentRequired _ _ _ => 402
  | .invalidPayment _ _ => 402
  | .badRequest _ _ => 400
  | .engine _ => 200

structure ServerPaymentConfig where
  payTo : String
  amount : String
  asset : Option String
  network : Option String
  description : Option String
  maxTimeoutSeconds : Option Nat
  freeTools : Option (List String)

/-- `AgentMcpServerConfig` (the identity-resource option only registers an
MCP resource inside the engine and never touches the HTTP layer under
study, so it is not modelled). -/
structure AgentMcpServerConfig where
  name : String
  version : String
  port : Option Nat
  cors : Option Bool
  payment : Option ServerPaymentConfig

structure ResolvedServerConfig where
  name : String
  version : String
  port : Nat
  cors : Bool
  payment : Option ServerPaymentConfig
  paymentServer : Option PaymentServerState

/-- The `AgentMcpServerInstance` constructor: defaults port and cors and,
when payment is configured, builds the `PaymentServer`. -/
def resolveServerConfig (config : AgentMcpServerConfig) : ResolvedServerConfig :=
  { name := config.name
    version := config.version
    port := config.port.getD 3000
    cors := config.cors.getD true
    payment := config.payment
    paymentServer := config.payment.map fun p =>
      PaymentServer.create
        { payTo := p.payTo
          amount := p.amount
          asset := some (p.asset.getD USDC_BASE)
          network := some (p.network.getD DEFAULT_NETWORK)
          description := some (p.description.getD (config.name ++ " MCP service"))
          maxTimeoutSeconds := p.maxTimeoutSeconds } }

/-- The bookkeeping `tool()` records: `!!payment && !freeTools.includes(name)`
with `freeTools = config.payment?.freeTools ?? ["ping"]`.  (The request
handler never consults this map — see the claim-C3 theorem.) -/
def toolRequiresPayment (config : ResolvedServerConfig) (name : String) : Bool :=
  config.payment.isSome &&
    !(((config.payment.bind ServerPaymentConfig.freeTools).getD ["ping"]).contains name)

/-- The session registry: the `transports` map (session id → transport)
plus a supply of fresh transport identities standing for
`new StreamableHTTPServerTransport(...)`. -/
structure ServerState where
  transports : List (String × Nat)
  nextTransport : Nat
  deriving DecidableEq

/-- `transport.onclose = () => transports.delete(newSessionId)`: the
registry entry is removed when the connection signals closure. -/
def closeSession (st : ServerState) (sessionId : String) : ServerState :=
  { st with transports := st.transports.filter fun p => !(p.1 == sessionId) }

/-- The 402 body message (uses the raw payment config:
`this.config.payment!.amount` / `.network ?? DEFAULT_NETWORK`; only
reached when payment is configured). -/
def challengeMessage (config : ResolvedServerConfig) : String :=
  "This MCP server requires x402 payment. Use a payment-capable client or pay " ++
    (match config.payment with | some p => p.amount | none => "") ++ " USDC on " ++
    (match config.payment with
     | some p => p.network.getD DEFAULT_NETWORK
     | none => DEFAULT_NETWORK) ++ "."

/-- The payment gate of `listen` ("Check payment for POST requests"): runs
for every POST when a `PaymentServer` exists — it inspects only the
headers, never the body or the registered-tools map.  `none` = ALLOW,
`some r` = the gate's terminal response. -/
def paymentGate (config : ResolvedServerConfig) (req : McpRequest) : Option ServerResponse :=
  match config.paymentServer, req.method with
  | some ps, .POST =>
    match req.xPayment with
    | none =>
      some (.paymentRequired
        (PaymentServer.buildRequirementsHeader ps
          ("https://" ++ req.host.getD "localhost" ++ req.url) noOverrides)
        "Payment Required" (challengeMessage config))
    | some _ =>
      let payResult := PaymentServer.verify ps req.xPayment
      if payResult.valid then none
      else some (.invalidPayment "Invalid Payment" payResult.error)
  | _, _ => none

/-- The "Handle MCP protocol" block of the handler: reuse a known session,
mint+register a new one for a session-less POST (arranging removal on the
connection's close signal, `closeSession`), serve a session-less or
stale-session GET over a fresh REGISTRY-EXEMPT stateless transport, and
answer 400 otherwise. -/
def sessionRoute (st : ServerState) (freshSessionId : String) (req : McpRequest) :
    ServerResponse × ServerState :=
  match req.sessionId with
  | some sid =>
    match st.transports.lookup sid with
    | some t => (.engine (.reused sid t), st)
    | none =>
      if req.method = .GET then
        (.engine (.stateless st.nextTransport),
          { st with nextTransport := st.nextTransport + 1 })
      else (.badRequest "Bad Request" "Missing MCP-Session-Id", st)
  | none =>
    if req.method = .POST then
      (.engine (.created freshSessionId st.nextTransport),
        { transports := (freshSessionId, st.nextTransport) :: st.transports,
          nextTransport := st.nextTransport + 1 })
    else if req.method = .GET then
      (.engine (.stateless st.nextTransport),
        { st with nextTransport := st.nextTransport + 1 })
    else (.badRequest "Bad Request" "Missing MCP-Session-Id", st)

/-- The request handler `listen` installs: CORS preflight, path filter,
payment gate, then session routing.  `freshSessionId` stands for the
`randomUUID()` minted for a new session. -/
def handleRequest (config : ResolvedServerConfig) (st : ServerState) (freshSessionId : String)
    (req : McpRequest) : ServerResponse × ServerState :=
  if config.cors && req.method = .OPTIONS then (.preflight, st)
  else if req.url ≠ "/mcp" && req.url ≠ "/" then
    (.notFound "Not found" "MCP endpoint is at /mcp", st)
  else
    match paymentGate config req with
    | some resp => (resp, st)
    | none => sessionRoute st freshSessionId req

/-! ## The payment client (payments/src/client.ts) -/

structure PaymentClientConfig where
  account : String
  chains : Option (List String)
  maxAmountPerRequest : Option String

structure ResolvedPaymentClientConfig where
  account : String
  chains : List String
  maxAmountPerRequest : String
  deriving DecidableEq

/-- The `PaymentClient` constructor: defaults `chains` to `["eip155:*"]`
and `maxAmountPerRequest` to 10 USDC. -/
def PaymentClient.create (config : PaymentClientConfig) : ResolvedPaymentClientConfig :=
  { account := config.account
    chains := config.chains.getD ["eip155:*"]
    maxAmountPerRequest := config.maxAmountPerRequest.getD DEFAULT_MAX_AMOUNT }

structure SchemeRegistration where
  network : String
  signerAddress : String
  deriving DecidableEq

/-- The full second argument `getPaidFetch` passes to the external
`wrapFetchWithPaymentFromConfig(fetch, { schemes })`. -/
structure WrapFetchConfig where
  schemes : List SchemeRegistration
  deriving DecidableEq

/-- `getPaidFetch`: one `ExactEvmScheme` per configured chain, each built
from a signer derived from the account.  Nothing else — in particular the
resolved `maxAmountPerRequest` is not threaded in. -/
def PaymentClient.wrapFetchConfig (config : ResolvedPaymentClientConfig) : WrapFetchConfig :=
  { schemes := config.chains.map fun network =>
      { network := network, signerAddress := config.account } }

/-! ## Fixtures for witnesses and counterexamples -/

/-- A registration file with an empty cross-reference list. -/
def sampleRegNoBackref : AgentRegistrationFile :=
  { type := REGISTRATION_TYPE, name := "sample", description := "sample agent",
    image := none, services := [], x402Support := false, active := true,
    registrations := some [], supportedTrust := none }

/-- A ledger whose reads all succeed and whose registration record has no
back-reference; the network is unreachable (data URIs do not need it). -/
def ledgerFixture : Ledger :=
  { ownerOf := fun _ _ => .ok "0x1111111111111111111111111111111111111111"
    getAgentWallet := fun _ _ => .ok "0x2222222222222222222222222222222222222222"
    tokenURI := fun _ _ => .ok (.dataB64 sampleRegNoBackref)
    fetchEnv := ⟨fun _ => .error "network disabled"⟩ }

/-- A payment server configured with only the required fields. -/
def psFixture : PaymentServerState :=
  PaymentServer.create
    { payTo := "0xPayee", amount := "100000", asset := none, network := none,
      description := none, maxTimeoutSeconds := none }

/-- A permit-style payload whose `permit2Authorization` is an EMPTY object:
no `permitted{amount, token}`, no `witness`. -/
def permitOnlyPayload : Json := .obj [("permit2Authorization", .obj [])]

/-- The payment options of the paid test server (no free-tools override,
so the default free list `["ping"]` applies). -/
def paidPaymentConfig : ServerPaymentConfig :=
  { payTo := "0xPayee", amount := "100000", asset := none, network := none,
    description := none, maxTimeoutSeconds := none, freeTools := none }

/-- A payment-configured server. -/
def serverCfgPaid : ResolvedServerConfig :=
  resolveServerConfig
    { name := "test-server", version := "0.1.0", port := none, cors := none,
      payment := some paidPaymentConfig }

/-- The `PaymentServer` the paid test server builds. -/
def psPaid : PaymentServerState :=
  PaymentServer.create
    { payTo := "0xPayee", amount := "100000", asset := some USDC_BASE,
      network := some DEFAULT_NETWORK, description := some "test-server MCP service",
      maxTimeoutSeconds := none }

/-- A server with no payment configuration. -/
def serverCfgFree : ResolvedServerConfig :=
  resolveServerConfig
    { name := "test-server", version := "0.1.0", port := none, cors := none, payment := none }

def st0 : ServerState := ⟨[], 0⟩

/-- POST naming the free tool `ping`, no payment header. -/
def reqPingPost : McpRequest := ⟨.POST, "/mcp", none, none, none, some "ping"⟩

/-- POST with no payment header and no session id. -/
def reqNoHeaderPost : McpRequest := ⟨.POST, "/mcp", none, none, none, none⟩

/-- GET presenting a session id that is no longer registered. -/
def reqStaleGet : McpRequest := ⟨.GET, "/mcp", none, none, some "s0", none⟩

/-- POST to the root path `/`. -/
def reqRootPost : McpRequest := ⟨.POST, "/", none, none, none, none⟩

/-- GET to an unknown path. -/
def reqBogusGet : McpRequest := ⟨.GET, "/bogus", none, none, none, none⟩

end AgentStack

namespace AgentStack

/-! ## Lemmas about the decimal rendering and the scanner -/

theorem digitChar_toNat (d : Nat) (h : d < 10) : (digitChar d).toNat = 48 + d := by
  interval_cases d <;> rfl

theorem isDigit_digitChar (d : Nat) (h : d < 10) : isDigitCh (digitChar d) = true := by
  interval_cases d <;> rfl

theorem digitChar_ne_slash (d : Nat) (h : d < 10) : digitChar d ≠ '/' := by
  interval_cases d <;> decide

theorem isEmpty_false_of_ne_nil (l : List Char) (h : l ≠ []) : l.isEmpty = false := by
  cases l with
  | nil => exact absurd rfl h
  | cons c cs => rfl

theorem natToDecFuel_append (fuel : Nat) : ∀ (n : Nat) (acc : List Char),
    natToDecFuel fuel n acc = natToDecFuel fuel n [] ++ acc := by
  induction fuel with
  | zero => intro n acc; rfl
  | succ f ih =>
    intro n acc
    by_cases h : n < 10
    · simp only [natToDecFuel]
      rw [if_pos h, if_pos h]
      rfl
    · simp only [natToDecFuel]
      rw [if_neg h, if_neg h, ih (n / 10) (digitChar (n % 10) :: acc),
        ih (n / 10) [digitChar (n % 10)], List.append_assoc]
      rfl

theorem natToDecFuel_congr (f : Nat) : ∀ (g n : Nat) (acc : List Char), n < f → n < g →
    natToDecFuel f n acc = natToDecFuel g n acc := by
  induction f with
  | zero => intro g n acc h; exact absurd h (Nat.not_lt_zero n)
  | succ f ih =>
    intro g n acc h hg
    cases g with
    | zero => exact absurd hg (Nat.not_lt_zero n)
    | succ g =>
      by_cases h10 : n < 10
      · simp only [natToDecFuel]
        rw [if_pos h10, if_pos h10]
      · simp only [natToDecFuel]
        rw [if_neg h10, if_neg h10]
        have hlt : n / 10 < n := Nat.div_lt_self (by omega) (by omega)
        exact ih g (n / 10) _ (by omega) (by omega)

theorem natToDecChars_base (n : Nat) (h : n < 10) : natToDecChars n = [digitChar n] := by
  rw [natToDecChars]
  simp only [natToDecFuel]
  rw [if_pos h]

theorem natToDecChars_step (n : Nat) (h : ¬n < 10) :
    natToDecChars n = natToDecChars (n / 10) ++ [digitChar (n % 10)] := by
  have hlt : n / 10 < n := Nat.div_lt_self (by omega) (by omega)
  rw [natToDecChars]
  simp only [natToDecFuel]
  rw [if_neg h,
    natToDecFuel_congr n (n / 10 + 1) (n / 10) [digitChar (n % 10)] hlt (by omega),
    natToDecFuel_append (n / 10 + 1) (n / 10) [digitChar (n % 10)]]
  rfl

theorem natToDecChars_ne_nil (n : Nat) : natToDecChars n ≠ [] := by
  by_cases h : n < 10
  · rw [natToDecChars_base n h]; simp
  · rw [natToDecChars_step n h]; simp

theorem mem_natToDecChars_isDigit (n : Nat) :
    ∀ c ∈ natToDecChars n, isDigitCh c = true := by
  induction n using Nat.strong_induction_on with
  | _ n ih =>
    intro c hc
    by_cases h : n < 10
    · rw [natToDecChars_base n h] at hc
      simp at hc
      subst hc
      exact isDigit_digitChar n h
    · have hlt : n / 10 < n := Nat.div_lt_self (by omega) (by omega)
      rw [natToDecChars_step n h] at hc
      rcases List.mem_append.mp hc with h1 | h2
      · exact ih _ hlt c h1
      · simp at h2
        subst h2
        exact isDigit_digitChar _ (Nat.mod_lt _ (by omega))

theorem digitsToNat_natToDecChars (n : Nat) : digitsToNat (natToDecChars n) = n := by
  induction n using Nat.strong_induction_on with
  | _ n ih =>
    by_cases h : n < 10
    · rw [natToDecChars_base n h]
      show 10 * 0 + ((digitChar n).toNat - 48) = n
      rw [digitChar_toNat n h]
      omega
    · have hlt : n / 10 < n := Nat.div_lt_self (by omega) (by omega)
      rw [natToDecChars_step n h]
      show List.foldl _ 0 (natToDecChars (n / 10) ++ [digitChar (n % 10)]) = n
      rw [List.foldl_append]
      show 10 * digitsToNat (natToDecChars (n / 10)) + ((digitChar (n % 10)).toNat - 48) = n
      rw [ih _ hlt, digitChar_toNat _ (Nat.mod_lt _ (by omega))]
      omega

theorem fp64RoundNat_small (n : Nat) (h : n < 2 ^ 53) : fp64RoundNat n = n := by
  rw [fp64RoundNat, if_pos h]

theorem jsNumberOfDigits_natToDecChars (n : Nat) (h : n < 2 ^ 53) :
    jsNumberOfDigits (natToDecChars n) = n := by
  rw [jsNumberOfDigits, digitsToNat_natToDecChars, fp64RoundNat_small n h]

theorem spanP_append_sat (p : Char → Bool) (xs ys : List Char)
    (hx : ∀ c ∈ xs, p c = true) :
    spanP p (xs ++ ys) = (xs ++ (spanP p ys).1, (spanP p ys).2) := by
  induction xs with
  | nil => simp
  | cons c cs ih =>
    have hc : p c = true := hx c (by simp)
    have hrest : ∀ d ∈ cs, p d = true := fun d hd => hx d (by simp [hd])
    simp only [List.cons_append, spanP, hc, if_true]
    simp [ih hrest]

theorem spanP_not_sat (p : Char → Bool) (c : Char) (cs : List Char) (hc : p c = false) :
    spanP p (c :: cs) = ([], c :: cs) := by
  simp [spanP, hc]

theorem spanP_all_sat (p : Char → Bool) (xs : List Char) (hx : ∀ c ∈ xs, p c = true) :
    spanP p xs = (xs, []) := by
  have := spanP_append_sat p xs [] hx
  simpa [spanP] using this

theorem replaceFirstSlash_of_not_mem (cs : List Char) (h : '/' ∉ cs) :
    replaceFirstSlash cs = cs := by
  induction cs with
  | nil => rfl
  | cons c cs ih =>
    have hc : c ≠ '/' := fun hh => h (by simp [hh])
    have hcs : '/' ∉ cs := fun hh => h (by simp [hh])
    simp [replaceFirstSlash, hc, ih hcs]

theorem replaceFirstSlash_append_slash (xs ys : List Char) (h : '/' ∉ xs) :
    replaceFirstSlash (xs ++ '/' :: ys) = xs ++ '#' :: ys := by
  induction xs with
  | nil => simp [replaceFirstSlash]
  | cons c cs ih =>
    have hc : c ≠ '/' := fun hh => h (by simp [hh])
    have hcs : '/' ∉ cs := fun hh => h (by simp [hh])
    simp [replaceFirstSlash, hc, ih hcs]

theorem matchGlobalId_canonical (c a : Nat) (hx : List Char) (hne : hx ≠ [])
    (hhex : ∀ ch ∈ hx, isHexCh ch = true) (hc : c < 2 ^ 53) (ha : a < 2 ^ 53) :
    matchGlobalId (canonicalChars c hx a '#') =
      some ⟨"eip155", c, ⟨'0' :: 'x' :: hx⟩, a⟩ := by
  have hd1 : ∀ ch ∈ natToDecChars c, isDigitCh ch = true := mem_natToDecChars_isDigit c
  have hd2 : ∀ ch ∈ natToDecChars a, isDigitCh ch = true := mem_natToDecChars_isDigit a
  have e1 : (natToDecChars c).isEmpty = false :=
    isEmpty_false_of_ne_nil _ (natToDecChars_ne_nil c)
  have e2 : hx.isEmpty = false := isEmpty_false_of_ne_nil _ hne
  have e3 : (natToDecChars a).isEmpty = false :=
    isEmpty_false_of_ne_nil _ (natToDecChars_ne_nil a)
  have hspan1 :
      spanP isDigitCh (natToDecChars c ++ ':' :: '0' :: 'x' :: (hx ++ '#' :: natToDecChars a)) =
        (natToDecChars c, ':' :: '0' :: 'x' :: (hx ++ '#' :: natToDecChars a)) := by
    rw [spanP_append_sat _ _ _ hd1, spanP_not_sat _ _ _ (by decide)]
    simp
  have hspan2 : spanP isHexCh (hx ++ '#' :: natToDecChars a) = (hx, '#' :: natToDecChars a) := by
    rw [spanP_append_sat _ _ _ hhex, spanP_not_sat _ _ _ (by decide)]
    simp
  have hspan3 : spanP isDigitCh (natToDecChars a) = (natToDecChars a, []) :=
    spanP_all_sat _ _ hd2
  simp only [canonicalChars, matchGlobalId, hspan1, hspan2, hspan3, e1, e2, e3,
    List.isEmpty_nil, Bool.not_true, Bool.or_false, Bool.false_eq_true, if_false,
    jsNumberOfDigits_natToDecChars c hc, jsNumberOfDigits_natToDecChars a ha]

theorem slash_not_mem_front (c : Nat) (hx : List Char)
    (hhex : ∀ ch ∈ hx, isHexCh ch = true) :
    '/' ∉ ('e' :: 'i' :: 'p' :: '1' :: '5' :: '5' :: ':' ::
      (natToDecChars c ++ ':' :: '0' :: 'x' :: hx)) := by
  intro hmem
  simp only [List.mem_cons, List.mem_append] at hmem
  rcases hmem with h | h | h | h | h | h | h | h
  · exact absurd h (by decide)
  · exact absurd h (by decide)
  · exact absurd h (by decide)
  · exact absurd h (by decide)
  · exact absurd h (by decide)
  · exact absurd h (by decide)
  · exact absurd h (by decide)
  · rcases h with h | h
    · have := mem_natToDecChars_isDigit c _ h
      exact absurd this (by decide)
    · rcases h with h | h | h | h
      · exact absurd h (by decide)
      · exact absurd h (by decide)
      · exact absurd h (by decide)
      · have := hhex _ h
        exact absurd this (by decide)

theorem canonicalChars_eq_append (c a : Nat) (hx : List Char) (sep : Char) :
    canonicalChars c hx a sep =
      ('e' :: 'i' :: 'p' :: '1' :: '5' :: '5' :: ':' ::
        (natToDecChars c ++ ':' :: '0' :: 'x' :: hx)) ++ sep :: natToDecChars a := by
  rw [canonicalChars]
  simp

theorem replaceFirstSlash_canonical_hash (c a : Nat) (hx : List Char)
    (hhex : ∀ ch ∈ hx, isHexCh ch = true) :
    replaceFirstSlash (canonicalChars c hx a '#') = canonicalChars c hx a '#' := by
  apply replaceFirstSlash_of_not_mem
  rw [canonicalChars_eq_append]
  intro hmem
  rcases List.mem_append.mp hmem with h | h
  · exact slash_not_mem_front c hx hhex h
  · simp only [List.mem_cons] at h
    rcases h with h | h
    · exact absurd h (by decide)
    · have := mem_natToDecChars_isDigit a _ h
      exact absurd this (by decide)

theorem replaceFirstSlash_canonical_slash (c a : Nat) (hx : List Char)
    (hhex : ∀ ch ∈ hx, isHexCh ch = true) :
    replaceFirstSlash (canonicalChars c hx a '/') = canonicalChars c hx a '#' := by
  rw [canonicalChars_eq_append, canonicalChars_eq_append,
    replaceFirstSlash_append_slash _ _ (slash_not_mem_front c hx hhex)]

/-- Canonical parse: a well-formed reference string whose ids are below
`2 ^ 53`, with either separator, parses to its components. -/
theorem parseAgentId_canonical (c a : Nat) (hx : List Char) (hne : hx ≠ [])
    (hhex : ∀ ch ∈ hx, isHexCh ch = true) (sep : Char) (hsep : sep = '#' ∨ sep = '/')
    (hc : c < 2 ^ 53) (ha : a < 2 ^ 53) :
    parseAgentId (canonicalStr c hx a sep) = some ⟨"eip155", c, ⟨'0' :: 'x' :: hx⟩, a⟩ := by
  rcases hsep with h | h <;> subst h <;>
    rw [parseAgentId, canonicalStr]
  · rw [show (String.mk (canonicalChars c hx a '#')).data = canonicalChars c hx a '#' from rfl,
      replaceFirstSlash_canonical_hash c a hx hhex]
    exact matchGlobalId_canonical c a hx hne hhex hc ha
  · rw [show (String.mk (canonicalChars c hx a '/')).data = canonicalChars c hx a '/' from rfl,
      replaceFirstSlash_canonical_slash c a hx hhex]
    exact matchGlobalId_canonical c a hx hne hhex hc ha

theorem formatAgentId_canonical (c a : Nat) (hx : List Char) :
    formatAgentId ⟨"eip155", c, ⟨'0' :: 'x' :: hx⟩, a⟩ = canonicalStr c hx a '#' := by
  apply String.ext
  simp only [formatAgentId, canonicalStr, natToDec, String.data_append]
  show ("eip155".data ++ ":".data ++ natToDecChars c ++ ":".data ++ ('0' :: 'x' :: hx) ++
    "#".data ++ natToDecChars a) = canonicalChars c hx a '#'
  rw [canonicalChars]
  simp

/-- Claim C9 (amended): for every well-formed global reference string
whose chain id and local id are written in canonical decimal and denote
values below `2 ^ 53` (the float64 exact-integer range) — components
`eip155`, chain id `c`, registry `0x`+`hx`, local id `a`, using either the
`#` separator or the `/` separator alias — `parseAgentId` succeeds with
exactly those components, and `formatAgentId` of the parse gives the
canonical `#`-separated form, preserving namespace, chainId,
registryAddress and localId.  (Above `2 ^ 53` the parse rounds the id to
the nearest even 53-bit value — see the counterexample.) -/
theorem parse_format_roundtrips_canonical (c a : Nat) (hx : List Char) (hne : hx ≠ [])
    (hhex : ∀ ch ∈ hx, isHexCh ch = true) (sep : Char) (hsep : sep = '#' ∨ sep = '/')
    (hc : c < 2 ^ 53) (ha : a < 2 ^ 53) :
    parseAgentId (canonicalStr c hx a sep) = some ⟨"eip155", c, ⟨'0' :: 'x' :: hx⟩, a⟩ ∧
      formatAgentId ⟨"eip155", c, ⟨'0' :: 'x' :: hx⟩, a⟩ = canonicalStr c hx a '#' :=
  ⟨parseAgentId_canonical c a hx hne hhex sep hsep hc ha, formatAgentId_canonical c a hx⟩

/-- Claim C9, witness: the round-trip at the concrete reference
`eip155:8453:0x8004/2376` (slash separator), normalizing to
`eip155:8453:0x8004#2376`. -/
theorem parse_format_roundtrips_canonical_witness :
    parseAgentId (canonicalStr 8453 ['8', '0', '0', '4'] 2376 '/') =
      some ⟨"eip155", 8453, ⟨'0' :: 'x' :: ['8', '0', '0', '4']⟩, 2376⟩ ∧
      formatAgentId ⟨"eip155", 8453, ⟨'0' :: 'x' :: ['8', '0', '0', '4']⟩, 2376⟩ =
        canonicalStr 8453 ['8', '0', '0', '4'] 2376 '#' :=
  parse_format_roundtrips_canonical 8453 2376 ['8', '0', '0', '4'] (by decide) (by decide)
    '/' (Or.inr rfl) (by decide) (by decide)

/-- Claim C9, counterexample: at the well-formed reference
`eip155:1:0xa#9007199254740993` (local id `2 ^ 53 + 1`), `Number()`
rounds the local id to `9007199254740992`, so the parse does NOT preserve
localId and re-formatting yields a DIFFERENT string — the round-trip
claimed for every well-formed reference string fails here. -/
theorem parse_loses_precision_above_2_53 :
    parseAgentId "eip155:1:0xa#9007199254740993" =
      some ⟨"eip155", 1, "0xa", 9007199254740992⟩ ∧
      (9007199254740992 : Nat) ≠ 9007199254740993 ∧
      formatAgentId ⟨"eip155", 1, "0xa", 9007199254740992⟩ =
        "eip155:1:0xa#9007199254740992" ∧
      ("eip155:1:0xa#9007199254740992" : String) ≠ "eip155:1:0xa#9007199254740993" :=
  ⟨by decide, by decide, by decide, by decide⟩

/-- Claim C1: when the owner read, the wallet read, the URI read and the
registration fetch all succeed but the fetched record's cross-reference
list has no entry matching `(chainId, registry, agentId)`, `verifyAgent`
returns `valid := false` with the back-reference-missing error, and the
result still carries the owner and (zero-normalized) payment wallet
already obtained. -/
theorem verifyAgent_backref_missing (l : Ledger) (ref : AgentRef) (rpcOverride : Option String)
    (owner paymentWalletRaw : String) (agentUri : AgentUri) (registration : AgentRegistrationFile)
    (hrpc : (rpcUrlFor rpcOverride ref.chainId).isSome = true)
    (hown : l.ownerOf ref.registry ref.agentId = .ok owner)
    (hwal : l.getAgentWallet ref.registry ref.agentId = .ok paymentWalletRaw)
    (huri : l.tokenURI ref.registry ref.agentId = .ok agentUri)
    (hfetch : fetchRegistrationFile agentUri DEFAULT_IPFS_GATEWAY l.fetchEnv = .ok registration)
    (hnoback : hasBackref ref registration = false) :
    verifyAgentRef ref rpcOverride l =
      { valid := false, agentId := ref.agentId, owner := some owner,
        paymentWallet := if paymentWalletRaw = ZERO_ADDRESS then none else some paymentWalletRaw,
        registration := some registration, globalId := formatAgentId ref,
        error := some (backrefErrorMessage ref) } := by
  obtain ⟨r, hr⟩ := Option.isSome_iff_exists.mp hrpc
  rw [verifyAgentRef]
  simp only [hr, hown, hwal, huri, hfetch, hnoback, Bool.false_eq_true, if_false]

/-- Claim C1, witness: a concrete ledger whose record lists no
cross-references at all. -/
theorem verifyAgent_backref_missing_witness :
    verifyAgentRef ⟨"eip155", 8453, "0xREG", 7⟩ none ledgerFixture =
      { valid := false, agentId := 7,
        owner := some "0x1111111111111111111111111111111111111111",
        paymentWallet :=
          if ("0x2222222222222222222222222222222222222222" : String) = ZERO_ADDRESS then none
          else some "0x2222222222222222222222222222222222222222",
        registration := some sampleRegNoBackref,
        globalId := formatAgentId ⟨"eip155", 8453, "0xREG", 7⟩,
        error := some (backrefErrorMessage ⟨"eip155", 8453, "0xREG", 7⟩) } :=
  verifyAgent_backref_missing ledgerFixture ⟨"eip155", 8453, "0xREG", 7⟩ none
    "0x1111111111111111111111111111111111111111"
    "0x2222222222222222222222222222222222222222"
    (.dataB64 sampleRegNoBackref) sampleRegNoBackref
    (by decide) rfl rfl rfl rfl (by decide)

theorem verifyAgentRef_valid_or_error (ref : AgentRef) (rpcOverride : Option String)
    (l : Ledger) :
    (verifyAgentRef ref rpcOverride l).valid = true ∨
      (verifyAgentRef ref rpcOverride l).error.isSome = true := by
  rw [verifyAgentRef]
  repeat' split
  all_goals simp

theorem verifyAgentRef_invalid_has_error (ref : AgentRef) (rpcOverride : Option String)
    (l : Ledger) (hv : (verifyAgentRef ref rpcOverride l).valid = false) :
    (verifyAgentRef ref rpcOverride l).error.isSome = true := by
  rcases verifyAgentRef_valid_or_error ref rpcOverride l with h | h
  · rw [hv] at h
    exact absurd h (by simp)
  · exact h

/-- Claim C2 (amended): `verifyAgent` on a string input returns a
`VerificationResult` exactly when the string matches the global-id
pattern — a non-matching string makes the `parseAgentId` call, which sits
outside the try/catch, throw across the resolver boundary.  Whenever a
result IS returned, any failure is reported as `valid := false` with an
error message, never as an exception. -/
theorem verifyAgent_throw_boundary (globalId : String) (l : Ledger) :
    (exceptIsOk (verifyAgentString globalId l) = (parseAgentId globalId).isSome) ∧
      (∀ r, verifyAgentString globalId l = .ok r → r.valid = false →
        r.error.isSome = true) := by
  constructor
  · rw [verifyAgentString]
    cases parseAgentId globalId <;> rfl
  · intro r hr hv
    rw [verifyAgentString] at hr
    cases hp : parseAgentId globalId with
    | none => rw [hp] at hr; exact absurd hr (by simp)
    | some ref =>
      rw [hp] at hr
      have : r = verifyAgentRef ref none l := by
        injection hr with h
        exact h.symm
      subst this
      exact verifyAgentRef_invalid_has_error ref none l hv

/-- Claim C2, counterexample: on an input that does not match the
global-id pattern, `verifyAgent` does NOT return a `valid := false`
result — the parse error is thrown across the resolver boundary. -/
theorem verifyAgent_throws_on_malformed :
    verifyAgentString "not-a-global-id" ledgerFixture =
      .error (parseErrorMessage "not-a-global-id") ∧
      exceptIsOk (verifyAgentString "not-a-global-id" ledgerFixture) = false :=
  ⟨rfl, rfl⟩

/-- Claim C2, witness: on a well-formed input the resolver returns a
result (here a `valid := false` one carrying an error, since the fixture's
record has no back-reference). -/
theorem verifyAgent_throw_boundary_witness :
    (exceptIsOk (verifyAgentString "eip155:8453:0x8004A169#2376" ledgerFixture) =
      (parseAgentId "eip155:8453:0x8004A169#2376").isSome) ∧
      (∀ r, verifyAgentString "eip155:8453:0x8004A169#2376" ledgerFixture = .ok r →
        r.valid = false → r.error.isSome = true) :=
  verifyAgent_throw_boundary "eip155:8453:0x8004A169#2376" ledgerFixture

theorem map_fix_of_all (f : Char → Char) (l : List Char) (h : ∀ c ∈ l, f c = c) :
    l.map f = l := by
  induction l with
  | nil => rfl
  | cons c cs ih =>
    simp only [List.map_cons, h c (by simp), ih (fun d hd => h d (by simp [hd]))]

theorem natToDecChars_eq_digitChar (n : Nat) :
    ∀ c ∈ natToDecChars n, ∃ d, d < 10 ∧ c = digitChar d := by
  induction n using Nat.strong_induction_on with
  | _ n ih =>
    intro c hc
    by_cases h : n < 10
    · rw [natToDecChars_base n h] at hc
      simp at hc
      exact ⟨n, h, hc⟩
    · have hlt : n / 10 < n := Nat.div_lt_self (by omega) (by omega)
      rw [natToDecChars_step n h] at hc
      rcases List.mem_append.mp hc with h1 | h2
      · exact ih _ hlt c h1
      · simp at h2
        exact ⟨n % 10, Nat.mod_lt _ (by omega), h2⟩

theorem charLower_digitChar (d : Nat) (h : d < 10) : charLower (digitChar d) = digitChar d := by
  interval_cases d <;> rfl

theorem toLowerStr_append (s t : String) :
    toLowerStr (s ++ t) = toLowerStr s ++ toLowerStr t := by
  apply String.ext
  simp [toLowerStr, String.data_append]

theorem toLowerStr_natToDec (n : Nat) : toLowerStr (natToDec n) = natToDec n := by
  apply String.ext
  show (natToDecChars n).map charLower = natToDecChars n
  apply map_fix_of_all
  intro c hc
  obtain ⟨d, hd, rfl⟩ := natToDecChars_eq_digitChar n c hc
  exact charLower_digitChar d hd

theorem toLowerStr_registry_entry (cid : Nat) (reg : String) :
    toLowerStr ("eip155:" ++ natToDec cid ++ ":" ++ reg) =
      "eip155:" ++ natToDec cid ++ ":" ++ toLowerStr reg := by
  rw [toLowerStr_append, toLowerStr_append, toLowerStr_append, toLowerStr_natToDec,
    show toLowerStr "eip155:" = "eip155:" from rfl, show toLowerStr ":" = ":" from rfl]

/-- Claim C10: for every `RegisterOptions` and every agent id,
`fetchRegistrationFile` applied to `buildRegistrationUri(options, agentId)`
succeeds without touching the network (the result is the same for EVERY
fetch environment), the first `registrations` entry is exactly
`(agentId, eip155:<chainId>:<registry>)`, and the built record passes
`verifyAgent`'s cross-reference check for its own chain and registry. -/
theorem buildRegistration_fetch_roundtrip (ctx : IdentityCtx) (options : RegisterOptions)
    (agentId : Nat) (env : FetchEnv) :
    ∃ file,
      fetchRegistrationFile (buildRegistrationUri ctx options (some agentId))
          DEFAULT_IPFS_GATEWAY env = .ok file ∧
        (file.registrations.getD []).head? =
          some ⟨agentId, "eip155:" ++ natToDec ctx.chainId ++ ":" ++ ctx.registry⟩ ∧
        hasBackref ⟨"eip155", ctx.chainId, ctx.registry, agentId⟩ file = true := by
  refine ⟨_, rfl, rfl, ?_⟩
  rw [hasBackref]
  simp only [Option.getD_some, List.any_cons, Bool.or_eq_true, Bool.and_eq_true, beq_iff_eq]
  left
  refine ⟨trivial, ?_⟩
  show toLowerStr ("eip155:" ++ natToDec ctx.chainId ++ ":" ++ ctx.registry) =
    expectedAgentRegistry ⟨"eip155", ctx.chainId, ctx.registry, agentId⟩
  rw [toLowerStr_registry_entry, expectedAgentRegistry]

/-- Claim C4 (amended): the structural validation recognizes the
direct-authorization shape — accepted exactly when `from`, `to`, `value`,
`nonce` are all present and truthy, rejected with the EIP-3009-structure
error otherwise — and the permit-style shape, which is accepted whenever
the `permit2Authorization` field is truthy, its nested `permitted{amount,
token}` and `witness.to` being extracted by optional chaining and left
absent when missing; a payload with neither field yields `valid:false`
with the unrecognized-payload-format error. -/
theorem validateStructure_shapes (ps : PaymentServerState) (payload network a p2 : Json) :
    (jsGet payload "authorization" = some a → a.truthy = true → a.isObjType = true →
      ((validateStructure ps payload network).valid = true ↔
        (truthyO (jsGet a "from") && truthyO (jsGet a "to") && truthyO (jsGet a "value") &&
          truthyO (jsGet a "nonce")) = true)) ∧
    (jsGet payload "authorization" = some a → a.truthy = true → a.isObjType = true →
      (truthyO (jsGet a "from") && truthyO (jsGet a "to") && truthyO (jsGet a "value") &&
        truthyO (jsGet a "nonce")) = false →
      validateStructure ps payload network =
        { valid := false, payment := none,
          error := some "Invalid EIP-3009 authorization structure" }) ∧
    (authCond payload = false → jsGet payload "permit2Authorization" = some p2 →
      p2.truthy = true →
      validateStructure ps payload network =
        { valid := true
          payment := some
            { fromAddr := jsGet p2 "from", toAddr := jsChain (jsGet p2 "witness") "to",
              amount := jsChain (jsGet p2 "permitted") "amount",
              asset := jsChain (jsGet p2 "permitted") "token", network := network }
          error := none }) ∧
    (authCond payload = false → truthyO (jsGet payload "permit2Authorization") = false →
      validateStructure ps payload network =
        { valid := false, payment := none,
          error := some "Unrecognized payment payload format" }) := by
  refine ⟨?_, ?_, ?_, ?_⟩
  · intro h ht hio
    have hac : authCond payload = true := by rw [authCond, h]; simp [ht, hio]
    rw [validateStructure, if_pos hac, h]
    simp only [Option.getD_some]
    by_cases hc : (truthyO (jsGet a "from") && truthyO (jsGet a "to") &&
        truthyO (jsGet a "value") && truthyO (jsGet a "nonce")) = true
    · rw [if_pos hc]
      simp [hc]
    · rw [if_neg hc]
      simp [hc]
  · intro h ht hio hc
    have hac : authCond payload = true := by rw [authCond, h]; simp [ht, hio]
    rw [validateStructure, if_pos hac, h]
    simp only [Option.getD_some]
    rw [if_neg (by simp [hc])]
  · intro hac hp2 ht
    have htr : truthyO (jsGet payload "permit2Authorization") = true := by
      rw [hp2]
      exact ht
    rw [validateStructure, if_neg (by simp [hac]), if_pos htr, hp2]
    simp only [Option.getD_some]
  · intro hac hperm
    rw [validateStructure, if_neg (by simp [hac]), if_neg (by simp [hperm])]

/-- Claim C4, counterexample: a permit-style payload whose
`permit2Authorization` is an empty object — it carries NO nested
`permitted{amount, token}` and NO `witness.to` — is nonetheless accepted
as a structurally valid proof (`valid := true`, with every extracted field
absent), where the claim requires `valid:false`. -/
theorem permit_payload_without_fields_accepted :
    (validateStructure psFixture permitOnlyPayload (.str DEFAULT_NETWORK)).valid = true ∧
      jsGet (Json.obj []) "permitted" = none ∧
      jsChain (jsGet (Json.obj []) "witness") "to" = none ∧
      (validateStructure psFixture permitOnlyPayload (.str DEFAULT_NETWORK)).payment =
        some { fromAddr := none, toAddr := none, amount := none, asset := none,
               network := .str DEFAULT_NETWORK } ∧
      (PaymentServer.verify psFixture (some (.decoded permitOnlyPayload))).valid = true :=
  ⟨rfl, rfl, rfl, rfl, rfl⟩

theorem paymentGate_no_header (config : ResolvedServerConfig) (ps : PaymentServerState)
    (req : McpRequest) (hps : config.paymentServer = some ps)
    (hm : req.method = .POST) (hx : req.xPayment = none) :
    paymentGate config req =
      some (.paymentRequired
        (PaymentServer.buildRequirementsHeader ps
          ("https://" ++ req.host.getD "localhost" ++ req.url) noOverrides)
        "Payment Required" (challengeMessage config)) := by
  unfold paymentGate
  rw [hps, hm, hx]

theorem paymentGate_invalid_header (config : ResolvedServerConfig) (ps : PaymentServerState)
    (req : McpRequest) (h : XPaymentHeader) (hps : config.paymentServer = some ps)
    (hm : req.method = .POST) (hx : req.xPayment = some h)
    (hv : (PaymentServer.verify ps (some h)).valid = false) :
    paymentGate config req =
      some (.invalidPayment "Invalid Payment" (PaymentServer.verify ps (some h)).error) := by
  unfold paymentGate
  rw [hps, hm, hx]
  simp [hv]

theorem paymentGate_allows_valid (config : ResolvedServerConfig) (ps : PaymentServerState)
    (req : McpRequest) (h : XPaymentHeader) (hps : config.paymentServer = some ps)
    (hm : req.method = .POST) (hx : req.xPayment = some h)
    (hv : (PaymentServer.verify ps (some h)).valid = true) :
    paymentGate config req = none := by
  unfold paymentGate
  rw [hps, hm, hx]
  simp [hv]

theorem paymentGate_none_of_no_server (config : ResolvedServerConfig) (req : McpRequest)
    (hps : config.paymentServer = none) : paymentGate config req = none := by
  unfold paymentGate
  rw [hps]

theorem paymentGate_none_of_not_post (config : ResolvedServerConfig) (req : McpRequest)
    (hm : req.method ≠ .POST) : paymentGate config req = none := by
  unfold paymentGate
  cases hps : config.paymentServer with
  | none => rfl
  | some ps =>
    cases hm2 : req.method with
    | GET => rfl
    | POST => exact absurd hm2 hm
    | DELETE => rfl
    | OPTIONS => rfl
    | other v => rfl

theorem handleRequest_gate_intercepts (config : ResolvedServerConfig) (st : ServerState)
    (fresh : String) (req : McpRequest) (resp : ServerResponse)
    (hnotopt : req.method ≠ .OPTIONS)
    (hurl : req.url = "/mcp" ∨ req.url = "/")
    (hg : paymentGate config req = some resp) :
    handleRequest config st fresh req = (resp, st) := by
  rcases hurl with hu | hu <;>
  · rw [handleRequest]
    simp [hnotopt, hu, hg]

theorem handleRequest_routes (config : ResolvedServerConfig) (st : ServerState)
    (fresh : String) (req : McpRequest)
    (hnotopt : req.method ≠ .OPTIONS)
    (hurl : req.url = "/mcp" ∨ req.url = "/")
    (hg : paymentGate config req = none) :
    handleRequest config st fresh req = sessionRoute st fresh req := by
  rcases hurl with hu | hu <;>
  · rw [handleRequest]
    simp [hnotopt, hu, hg]

/-- Claim C3 evaluation: the gate ignores the tool the body names — the
handler's outcome is invariant under the named tool (first conjunct) —
and at the concrete failing input (payment-configured server, POST naming
the free-listed tool `ping`, no `X-PAYMENT` header) the response is a 402
challenge even though the server's own bookkeeping records `ping` as not
requiring payment (last conjunct). -/
theorem free_tool_still_challenged :
    (∀ (config : ResolvedServerConfig) (st : ServerState) (fresh : String) (req : McpRequest)
        (t t' : Option String),
      handleRequest config st fresh { req with toolName := t } =
        handleRequest config st fresh { req with toolName := t' }) ∧
      statusOf (handleRequest serverCfgPaid st0 "s1" reqPingPost).1 = 402 ∧
      toolRequiresPayment serverCfgPaid "ping" = false :=
  ⟨fun _ _ _ _ _ _ => rfl, rfl, rfl⟩

/-- Claim C5 (amended): a guarded POST with no `X-PAYMENT` header is
answered with the 402 challenge carrying the `X-PAYMENT-REQUIRED`
envelope `{version: 2, accepts: [req]}` whose `accepts[0].resource` is the
requested path PREFIXED BY SCHEME AND HOST (`https://<host><path>`, host
defaulting to `localhost`); a guarded POST whose header fails structural
validation is also answered 402, with the different `Invalid Payment`
body. -/
theorem guarded_post_is_challenged (config : ResolvedServerConfig) (ps : PaymentServerState)
    (st : ServerState) (fresh : String) (req : McpRequest)
    (hps : config.paymentServer = some ps)
    (hm : req.method = .POST)
    (hurl : req.url = "/mcp" ∨ req.url = "/") :
    (req.xPayment = none →
      handleRequest config st fresh req =
        (.paymentRequired
          (PaymentServer.buildRequirementsHeader ps
            ("https://" ++ req.host.getD "localhost" ++ req.url) noOverrides)
          "Payment Required" (challengeMessage config), st) ∧
      PaymentServer.buildRequirementsHeader ps
          ("https://" ++ req.host.getD "localhost" ++ req.url) noOverrides =
        { version := 2,
          accepts := [PaymentServer.buildRequirements ps
            ("https://" ++ req.host.getD "localhost" ++ req.url) noOverrides] } ∧
      (PaymentServer.buildRequirements ps
          ("https://" ++ req.host.getD "localhost" ++ req.url) noOverrides).resource =
        "https://" ++ req.host.getD "localhost" ++ req.url) ∧
    (∀ h, req.xPayment = some h →
      (PaymentServer.verify ps (some h)).valid = false →
      handleRequest config st fresh req =
        (.invalidPayment "Invalid Payment" (PaymentServer.verify ps (some h)).error, st)) := by
  have hnotopt : req.method ≠ .OPTIONS := by rw [hm]; simp
  constructor
  · intro hx
    exact ⟨handleRequest_gate_intercepts config st fresh req _ hnotopt hurl
      (paymentGate_no_header config ps req hps hm hx), rfl, rfl⟩
  · intro h hx hv
    exact handleRequest_gate_intercepts config st fresh req _ hnotopt hurl
      (paymentGate_invalid_header config ps req h hps hm hx hv)

/-- Claim C5, witness: the concrete scenario — paid server, POST to
`/mcp`, no host header, no payment header — yields the 402 whose
requirements name `https://localhost/mcp`. -/
theorem guarded_post_is_challenged_witness :
    (reqNoHeaderPost.xPayment = none →
      handleRequest serverCfgPaid st0 "s1" reqNoHeaderPost =
        (.paymentRequired
          (PaymentServer.buildRequirementsHeader psPaid
            ("https://" ++ reqNoHeaderPost.host.getD "localhost" ++ reqNoHeaderPost.url)
            noOverrides)
          "Payment Required" (challengeMessage serverCfgPaid), st0) ∧
      PaymentServer.buildRequirementsHeader psPaid
          ("https://" ++ reqNoHeaderPost.host.getD "localhost" ++ reqNoHeaderPost.url)
          noOverrides =
        { version := 2,
          accepts := [PaymentServer.buildRequirements psPaid
            ("https://" ++ reqNoHeaderPost.host.getD "localhost" ++ reqNoHeaderPost.url)
            noOverrides] } ∧
      (PaymentServer.buildRequirements psPaid
          ("https://" ++ reqNoHeaderPost.host.getD "localhost" ++ reqNoHeaderPost.url)
          noOverrides).resource =
        "https://" ++ reqNoHeaderPost.host.getD "localhost" ++ reqNoHeaderPost.url) ∧
    (∀ h, reqNoHeaderPost.xPayment = some h →
      (PaymentServer.verify psPaid (some h)).valid = false →
      handleRequest serverCfgPaid st0 "s1" reqNoHeaderPost =
        (.invalidPayment "Invalid Payment" (PaymentServer.verify psPaid (some h)).error, st0)) :=
  guarded_post_is_challenged serverCfgPaid psPaid st0 "s1" reqNoHeaderPost rfl rfl (Or.inl rfl)

/-- Claim C5, counterexample: at the concrete challenge, the decoded
header's `accepts[0].resource` is `https://localhost/mcp`, which is NOT
equal to the requested path `/mcp` (it contains it as a suffix after
scheme and host). -/
theorem challenge_resource_is_full_url :
    (handleRequest serverCfgPaid st0 "s1" reqNoHeaderPost).1 =
      .paymentRequired
        (PaymentServer.buildRequirementsHeader psPaid "https://localhost/mcp" noOverrides)
        "Payment Required" (challengeMessage serverCfgPaid) ∧
      (PaymentServer.buildRequirementsHeader psPaid "https://localhost/mcp"
        noOverrides).accepts.head? =
        some (PaymentServer.buildRequirements psPaid "https://localhost/mcp" noOverrides) ∧
      (PaymentServer.buildRequirements psPaid "https://localhost/mcp" noOverrides).resource =
        "https://localhost/mcp" ∧
      reqNoHeaderPost.url = "/mcp" ∧
      ("https://localhost/mcp" : String) ≠ "/mcp" :=
  ⟨rfl, rfl, rfl, rfl, by decide⟩

/-- Claim C8 (amended): with the preflight short-circuit aside, every
request whose path is neither `/mcp` nor `/` is rejected with a 404 hint
body and reaches neither the payment gate nor the engine (the state,
registry included, is untouched). -/
theorem unknown_path_404 (config : ResolvedServerConfig) (st : ServerState)
    (fresh : String) (req : McpRequest)
    (hnotpre : ¬(config.cors = true ∧ req.method = .OPTIONS))
    (h1 : req.url ≠ "/mcp") (h2 : req.url ≠ "/") :
    handleRequest config st fresh req =
      (.notFound "Not found" "MCP endpoint is at /mcp", st) := by
  have hcond : (config.cors && decide (req.method = .OPTIONS)) = false := by
    by_cases ho : req.method = .OPTIONS
    · have hc : config.cors = false := by
        rcases Bool.eq_false_or_eq_true config.cors with hb | hb
        · exact absurd ⟨hb, ho⟩ hnotpre
        · exact hb
      simp [hc]
    · simp [ho]
  rw [handleRequest]
  simp [hcond, h1, h2]

/-- Claim C8, witness: a GET to `/bogus` on the free test server is
answered 404 with the hint, state untouched. -/
theorem unknown_path_404_witness :
    handleRequest serverCfgFree st0 "s1" reqBogusGet =
      (.notFound "Not found" "MCP endpoint is at /mcp", st0) :=
  unknown_path_404 serverCfgFree st0 "s1" reqBogusGet (by simp [serverCfgFree]; decide)
    (by decide) (by decide)

/-- Claim C8, counterexample: the handler accepts TWO paths, not one — a
POST to `/` is not rejected with 404 but forwarded to a freshly created
engine connection. -/
theorem root_path_reaches_engine :
    (handleRequest serverCfgFree st0 "s1" reqRootPost).1 = .engine (.created "s1" 0) ∧
      statusOf (handleRequest serverCfgFree st0 "s1" reqRootPost).1 ≠ 404 ∧
      reqRootPost.url ≠ "/mcp" :=
  ⟨rfl, by decide, by decide⟩

theorem lookup_filter_ne (k : String) (l : List (String × Nat)) :
    (l.filter fun p => !(p.1 == k)).lookup k = none := by
  induction l with
  | nil => rfl
  | cons p ps ih =>
    by_cases hp : p.1 = k
    · simp only [List.filter_cons, hp, beq_self_eq_true, Bool.not_true, if_false]
      exact ih
    · have h1 : (p.1 == k) = false := by simp [hp]
      have h2 : (k == p.1) = false := by
        simp only [beq_eq_false_iff_ne]
        exact fun h => hp h.symm
      simp only [List.filter_cons, h1, Bool.not_false, if_true, List.lookup, h2]
      exact ih

theorem sessionRoute_preserves_nodup (st : ServerState) (fresh : String) (req : McpRequest)
    (hnd : (st.transports.map Prod.fst).Nodup)
    (hfresh : fresh ∉ st.transports.map Prod.fst) :
    (((sessionRoute st fresh req).2).transports.map Prod.fst).Nodup := by
  rw [sessionRoute]
  repeat' split
  · exact hnd
  · exact hnd
  · exact hnd
  · exact List.nodup_cons.mpr ⟨hfresh, hnd⟩
  · exact hnd
  · exact hnd

theorem closeSession_preserves_nodup (st : ServerState) (sid : String)
    (hnd : (st.transports.map Prod.fst).Nodup) :
    ((closeSession st sid).transports.map Prod.fst).Nodup :=
  List.Nodup.sublist ((List.filter_sublist _).map _) hnd

/-- Claim C7 (amended): after a connection signals closure its session id
is absent from the registry; a later POST or DELETE presenting that id
(once past the gate) is answered 400 Bad Request with the registry
untouched, not served over a fresh connection — but a GET is NOT (see the
counterexample); and the registry keeps at most one live connection per
session identifier (distinct keys are preserved by every request and by
closure, given the minted id is fresh). -/
theorem session_close_then_stale_rejected (config : ResolvedServerConfig) (st : ServerState)
    (fresh sid : String) (req : McpRequest) :
    ((closeSession st sid).transports.lookup sid = none) ∧
    (req.sessionId = some sid → st.transports.lookup sid = none →
      req.method = .POST ∨ req.method = .DELETE →
      paymentGate config req = none →
      (req.url = "/mcp" ∨ req.url = "/") →
      handleRequest config st fresh req =
        (.badRequest "Bad Request" "Missing MCP-Session-Id", st)) ∧
    ((st.transports.map Prod.fst).Nodup → fresh ∉ st.transports.map Prod.fst →
      (((handleRequest config st fresh req).2).transports.map Prod.fst).Nodup) ∧
    ((st.transports.map Prod.fst).Nodup →
      ((closeSession st sid).transports.map Prod.fst).Nodup) := by
  refine ⟨lookup_filter_ne sid st.transports, ?_, ?_, closeSession_preserves_nodup st sid⟩
  · intro hsid hlk hmeth hg hurl
    rcases hmeth with h | h <;>
    · rw [handleRequest_routes config st fresh req (by rw [h]; simp) hurl hg]
      unfold sessionRoute
      rw [hsid]
      simp [hlk, h]
  · intro hnd hfresh
    rw [handleRequest]
    split
    · exact hnd
    · split
      · exact hnd
      · split
        · exact hnd
        · exact sessionRoute_preserves_nodup st fresh req hnd hfresh

/-- Claim C7, counterexample: after `s0`'s connection closes, a GET
presenting the stale id `s0` is NOT answered 400 — it is served over a
fresh, registry-exempt stateless connection, against the claim's
"whatever its HTTP method". -/
theorem stale_get_served_statelessly :
    closeSession ⟨[("s0", 0)], 1⟩ "s0" = ⟨[], 1⟩ ∧
      (handleRequest serverCfgFree ⟨[], 1⟩ "f1" reqStaleGet).1 = .engine (.stateless 1) ∧
      statusOf (handleRequest serverCfgFree ⟨[], 1⟩ "f1" reqStaleGet).1 ≠ 400 ∧
      reqStaleGet.sessionId = some "s0" :=
  ⟨rfl, rfl, by decide, rfl⟩

/-- Claim C6 evaluation: the connector's payment-aware fetch is built by
handing the external `wrapFetchWithPaymentFromConfig` only the scheme
registrations — the resolved `maxAmountPerRequest` ceiling (second
conjunct shows it IS recorded in the client's config) is never part of the
wrapper's arguments, so the auto-retry decision cannot depend on the
configured per-request maximum. -/
theorem maxAmount_never_reaches_wrapper (account : String) (chains : Option (List String))
    (m m' : Option String) :
    PaymentClient.wrapFetchConfig (PaymentClient.create ⟨account, chains, m⟩) =
      PaymentClient.wrapFetchConfig (PaymentClient.create ⟨account, chains, m'⟩) ∧
      (PaymentClient.create ⟨account, chains, some "100000"⟩).maxAmountPerRequest = "100000" :=
  ⟨rfl, rfl⟩

end AgentStack
